import Mathlib

/-!
Shallow embedding of the inventory-management-service core
(src/models/inventory.py, src/repositories/inventory.py,
src/repositories/reservation.py, src/api/routes/inventory.py,
src/api/routes/reservations.py).

Ids (UUIDs in the source) are modelled as naturals; quantities (Python ints,
SQL INTEGER) as unbounded `Int`, matching the source's arithmetic.  Timestamps
(`created_at`, `updated_at`, `expires_at`) play no role in the verified claims
and are omitted.  The database session is modelled as an explicit `Store`
value threaded through each operation; `db.commit` keeps the new store and
`db.rollback` restores the store the request started from, which is how the
route functions below return the original store on every error path.
-/

namespace InvSvc

abbrev ProductId := Nat
abbrev LocationId := Nat
abbrev OrderId := Nat
abbrev ReservationId := Nat
abbrev InventoryId := Nat

/-- ReservationStatus enum (src/models/inventory.py). -/
inductive ReservationStatus
  | active
  | expired
  | released
  | completed
deriving DecidableEq, Repr

/-- AdjustmentType enum (src/models/inventory.py).  `return` is a Lean
keyword, so that variant is spelled `sales_return`. -/
inductive AdjustmentType
  | restock
  | damage
  | theft
  | correction
  | sales_return
  | manual
deriving DecidableEq, Repr

/-- Inventory row (src/models/inventory.py, class Inventory).  The derived
`total_quantity` and `is_low_stock` properties are definitions below. -/
structure Inventory where
  id : InventoryId
  product_id : ProductId
  location_id : LocationId
  quantity_available : Int
  quantity_reserved : Int
  reorder_point : Int
  reorder_quantity : Int
deriving DecidableEq, Repr

def Inventory.total_quantity (inv : Inventory) : Int :=
  inv.quantity_available + inv.quantity_reserved

def Inventory.is_low_stock (inv : Inventory) : Prop :=
  inv.quantity_available ≤ inv.reorder_point

/-- Reservation row (src/models/inventory.py, class Reservation).
`location_id` embeds the value reached through the `inventory` relationship
(`reservation.inventory.location_id` in the source). -/
structure Reservation where
  id : ReservationId
  inventory_id : InventoryId
  product_id : ProductId
  location_id : LocationId
  order_id : OrderId
  quantity : Int
  status : ReservationStatus
deriving DecidableEq, Repr

/-- InventoryAdjustment row (src/models/inventory.py). -/
structure InventoryAdjustment where
  inventory_id : InventoryId
  product_id : ProductId
  adjustment_type : AdjustmentType
  quantity : Int
  reason : Option String
  created_by : String
deriving DecidableEq, Repr

/-- The persistent state: the three tables the claims are about, plus the set
of registered location ids (the only part of the Location table the inventory
routes consult). -/
structure Store where
  locations : List LocationId
  inventories : List Inventory
  reservations : List Reservation
  adjustments : List InventoryAdjustment
deriving DecidableEq, Repr

def emptyStore : Store := ⟨[], [], [], []⟩

/-- SQLAlchemy mutates the single row fetched by a `SELECT ... FOR UPDATE`;
this helper rewrites the first list element satisfying `p` with `f`, leaving
everything else in place. -/
def updateFirstBy {α : Type} (p : α → Bool) (f : α → α) : List α → List α
  | [] => []
  | x :: xs => if p x then f x :: xs else x :: updateFirstBy p f xs

/-- Row predicate of the `WHERE product_id = ... AND location_id = ...`
lookups in InventoryRepository. -/
def invKey (p : ProductId) (l : LocationId) : Inventory → Bool :=
  fun inv => inv.product_id == p && inv.location_id == l

/-- The two counter mutations of a successful reserve
(`inventory.quantity_available -= quantity;
inventory.quantity_reserved += quantity`). -/
def reserveUpdate (quantity : Int) (inv : Inventory) : Inventory :=
  { inv with quantity_available := inv.quantity_available - quantity,
             quantity_reserved := inv.quantity_reserved + quantity }

/-- The two counter mutations of a successful release
(`inventory.quantity_available += quantity;
inventory.quantity_reserved -= quantity`). -/
def releaseUpdate (quantity : Int) (inv : Inventory) : Inventory :=
  { inv with quantity_available := inv.quantity_available + quantity,
             quantity_reserved := inv.quantity_reserved - quantity }

/-- The counter mutation of a successful adjust
(`inventory.quantity_available = new_quantity`). -/
def adjustUpdate (quantity_change : Int) (inv : Inventory) : Inventory :=
  { inv with quantity_available := inv.quantity_available + quantity_change }

/-- The status flip performed by the reservation transition operations. -/
def Reservation.setStatus (st : ReservationStatus) (r : Reservation) : Reservation :=
  { r with status := st }

/-- InventoryRepository.get_by_product_and_location. -/
def get_by_product_and_location (s : Store) (p : ProductId) (l : LocationId) :
    Option Inventory :=
  s.inventories.find? (invKey p l)

namespace InventoryRepository

/-- InventoryRepository.reserve_inventory (src/repositories/inventory.py
lines 129-179): row-locked read, guard `not inventory or
inventory.quantity_available < quantity`, then the two counter mutations on
the fetched row.  `False` outcomes perform no mutation. -/
def reserve_inventory (s : Store) (p : ProductId) (l : LocationId)
    (quantity : Int) : Bool × Store :=
  match get_by_product_and_location s p l with
  | none => (false, s)
  | some inventory =>
    if inventory.quantity_available < quantity then (false, s)
    else
      let upd : List Inventory :=
        updateFirstBy (invKey p l) (reserveUpdate quantity) s.inventories
      (true, { s with inventories := upd })

/-- InventoryRepository.release_inventory (src/repositories/inventory.py
lines 181-231): guard `not inventory or inventory.quantity_reserved <
quantity`, then `quantity_available += quantity; quantity_reserved -=
quantity`. -/
def release_inventory (s : Store) (p : ProductId) (l : LocationId)
    (quantity : Int) : Bool × Store :=
  match get_by_product_and_location s p l with
  | none => (false, s)
  | some inventory =>
    if inventory.quantity_reserved < quantity then (false, s)
    else
      let upd : List Inventory :=
        updateFirstBy (invKey p l) (releaseUpdate quantity) s.inventories
      (true, { s with inventories := upd })

/-- InventoryRepository.adjust_inventory (src/repositories/inventory.py
lines 233-312): guard on missing row, negative-inventory guard
`new_quantity < 0`, then set `quantity_available = new_quantity` and insert
one InventoryAdjustment in the same transaction. -/
def adjust_inventory (s : Store) (p : ProductId) (l : LocationId)
    (quantity_change : Int) (adjustment_type : AdjustmentType)
    (reason : Option String) (created_by : String) : Bool × Store :=
  match get_by_product_and_location s p l with
  | none => (false, s)
  | some inventory =>
    if inventory.quantity_available + quantity_change < 0 then (false, s)
    else
      let upd : List Inventory :=
        updateFirstBy (invKey p l) (adjustUpdate quantity_change) s.inventories
      let adj : InventoryAdjustment :=
        { inventory_id := inventory.id, product_id := p,
          adjustment_type := adjustment_type, quantity := quantity_change,
          reason := reason, created_by := created_by }
      (true, { s with inventories := upd, adjustments := s.adjustments ++ [adj] })

/-- InventoryRepository.get_low_stock_items (src/repositories/inventory.py
lines 111-127): `WHERE quantity_available <= reorder_point`, optional
location filter, `LIMIT limit`.  Note: no ORDER BY at this layer. -/
def get_low_stock_items (s : Store) (location_id : Option LocationId)
    (limit : Nat) : List Inventory :=
  let stmt : List Inventory := s.inventories.filter
    (fun inv => decide (inv.quantity_available ≤ inv.reorder_point))
  let stmt2 : List Inventory := match location_id with
    | some l => stmt.filter (fun inv => inv.location_id == l)
    | none => stmt
  stmt2.take limit

end InventoryRepository

/-- Row predicate of the reservation-by-id lookups. -/
def resKey (rid : ReservationId) : Reservation → Bool :=
  fun r => r.id == rid

/-- The store after flipping the status of reservation `rid`, the one write
the three reservation transition operations make. -/
def setReservationStatus (s : Store) (rid : ReservationId)
    (st : ReservationStatus) : Store :=
  { s with reservations :=
      updateFirstBy (resKey rid) (Reservation.setStatus st) s.reservations }

namespace ReservationRepository

/-- ReservationRepository.get. -/
def get (s : Store) (rid : ReservationId) : Option Reservation :=
  s.reservations.find? (resKey rid)

/-- ReservationRepository.get_active_by_order: reservations of the order
whose status is ACTIVE. -/
def get_active_by_order (s : Store) (order_id : OrderId) : List Reservation :=
  s.reservations.filter
    (fun r => r.order_id == order_id && decide (r.status = ReservationStatus.active))

/-- ReservationRepository.mark_as_completed (src/repositories/reservation.py
lines 129-158): fails unless the reservation exists with status ACTIVE;
otherwise sets status COMPLETED and nothing else. -/
def mark_as_completed (s : Store) (rid : ReservationId) : Bool × Store :=
  match get s rid with
  | none => (false, s)
  | some reservation =>
    if reservation.status ≠ ReservationStatus.active then (false, s)
    else (true, setReservationStatus s rid ReservationStatus.completed)

/-- ReservationRepository.mark_as_expired (src/repositories/reservation.py
lines 160-189). -/
def mark_as_expired (s : Store) (rid : ReservationId) : Bool × Store :=
  match get s rid with
  | none => (false, s)
  | some reservation =>
    if reservation.status ≠ ReservationStatus.active then (false, s)
    else (true, setReservationStatus s rid ReservationStatus.expired)

/-- ReservationRepository.release_reservation (src/repositories/reservation.py
lines 191-220): status-only flip to RELEASED; ledger counters untouched. -/
def release_reservation (s : Store) (rid : ReservationId) : Bool × Store :=
  match get s rid with
  | none => (false, s)
  | some reservation =>
    if reservation.status ≠ ReservationStatus.active then (false, s)
    else (true, setReservationStatus s rid ReservationStatus.released)

end ReservationRepository

/-- Error outcomes of the route layer, by HTTP class: NotFoundError 404,
ConflictError / HTTPException 409, InsufficientStockError 409 (a distinct
exception type in src/core/exceptions.py), BadRequestError 400, and the
generic 500 path. -/
inductive ApiError
  | notFound
  | conflict
  | insufficientStock
  | badRequest
  | internal
deriving DecidableEq, Repr

/- API route layer.  Each route returns the store after the request
(`db.commit` on success) paired with its outcome; every raised error passes
through `db.rollback`, so the error rows pair the untouched input store. -/
namespace Api

/-- create_inventory route (src/api/routes/inventory.py lines 585-665):
location-existence check, duplicate check, then a new row with
`quantity_reserved=0`.  `iid` stands in for the generated row UUID. -/
def create_inventory (s : Store) (p : ProductId) (l : LocationId)
    (quantity_available reorder_point reorder_quantity : Int)
    (iid : InventoryId) : Store × Except ApiError Inventory :=
  if l ∈ s.locations then
    match get_by_product_and_location s p l with
    | some _ => (s, Except.error ApiError.conflict)
    | none =>
      let inv : Inventory :=
        { id := iid, product_id := p, location_id := l,
          quantity_available := quantity_available, quantity_reserved := 0,
          reorder_point := reorder_point, reorder_quantity := reorder_quantity }
      ({ s with inventories := s.inventories ++ [inv] }, Except.ok inv)
  else (s, Except.error ApiError.notFound)

/-- reserve_inventory route (src/api/routes/inventory.py lines 139-251):
404 if the record is absent, InsufficientStock (409) if the repository
reserve fails, otherwise a new ACTIVE reservation row is created for the
order.  `rid` stands in for the generated reservation UUID; `expires_at` is
not modelled. -/
def reserve_inventory (s : Store) (p : ProductId) (l : LocationId)
    (quantity : Int) (order_id : OrderId) (rid : ReservationId) :
    Store × Except ApiError (Inventory × Reservation) :=
  match get_by_product_and_location s p l with
  | none => (s, Except.error ApiError.notFound)
  | some inventory =>
    match InventoryRepository.reserve_inventory s p l quantity with
    | (false, _) => (s, Except.error ApiError.insufficientStock)
    | (true, s2) =>
      let reservation : Reservation :=
        { id := rid, inventory_id := inventory.id, product_id := p,
          location_id := inventory.location_id, order_id := order_id,
          quantity := quantity, status := ReservationStatus.active }
      let s3 := { s2 with reservations := s2.reservations ++ [reservation] }
      match get_by_product_and_location s3 p l with
      | some inv2 => (s3, Except.ok (inv2, reservation))
      | none => (s, Except.error ApiError.internal)

/-- release_inventory route (src/api/routes/inventory.py lines 274-375):
scans the order's ACTIVE reservations for one matching product, quantity and
location exactly; 404 if none, Conflict (409) if the ledger release fails,
else the ledger release plus the reservation status flip commit together. -/
def release_inventory (s : Store) (p : ProductId) (l : LocationId)
    (quantity : Int) (order_id : OrderId) : Store × Except ApiError Inventory :=
  let reservations := ReservationRepository.get_active_by_order s order_id
  match reservations.find? (fun res =>
      res.product_id == p && res.quantity == quantity && res.location_id == l) with
  | none => (s, Except.error ApiError.notFound)
  | some matching_reservation =>
    match InventoryRepository.release_inventory s p l quantity with
    | (false, _) => (s, Except.error ApiError.conflict)
    | (true, s2) =>
      match ReservationRepository.release_reservation s2 matching_reservation.id with
      | (_, s3) =>
        match get_by_product_and_location s3 p l with
        | some inv => (s3, Except.ok inv)
        | none => (s, Except.error ApiError.internal)

/-- adjust_inventory route (src/api/routes/inventory.py lines 399-500):
404 if the record is absent; if the repository adjust fails the route maps a
negative delta to BadRequest (400) and anything else to the 500 path. -/
def adjust_inventory (s : Store) (p : ProductId) (l : LocationId)
    (quantity_change : Int) (adjustment_type : AdjustmentType)
    (reason : Option String) (created_by : String) :
    Store × Except ApiError Inventory :=
  match get_by_product_and_location s p l with
  | none => (s, Except.error ApiError.notFound)
  | some _ =>
    match InventoryRepository.adjust_inventory s p l quantity_change
        adjustment_type reason created_by with
    | (false, _) =>
      if quantity_change < 0 then (s, Except.error ApiError.badRequest)
      else (s, Except.error ApiError.internal)
    | (true, s2) =>
      match get_by_product_and_location s2 p l with
      | some inv => (s2, Except.ok inv)
      | none => (s, Except.error ApiError.internal)

/-- get_low_stock route (src/api/routes/inventory.py lines 519-564): maps
the repository rows to items annotated with `shortage = reorder_point -
quantity_available`, then `response_items.sort` by shortage descending. -/
structure LowStockItem where
  product_id : ProductId
  location_id : LocationId
  quantity_available : Int
  reorder_point : Int
  reorder_quantity : Int
  shortage : Int
deriving DecidableEq, Repr

def toLowStockItem (inv : Inventory) : LowStockItem :=
  { product_id := inv.product_id, location_id := inv.location_id,
    quantity_available := inv.quantity_available,
    reorder_point := inv.reorder_point,
    reorder_quantity := inv.reorder_quantity,
    shortage := inv.reorder_point - inv.quantity_available }

/-- The comparison of `response_items.sort(key=shortage, reverse=True)`:
a precedes b when a's shortage is at least b's. -/
def shortageGe (a b : LowStockItem) : Prop := b.shortage ≤ a.shortage

instance : DecidableRel shortageGe := fun _ _ => Int.decLe _ _

instance : IsTotal LowStockItem shortageGe :=
  ⟨fun a b => le_total b.shortage a.shortage⟩

instance : IsTrans LowStockItem shortageGe :=
  ⟨fun _ _ _ h1 h2 => le_trans h2 h1⟩

def get_low_stock (s : Store) (location_id : Option LocationId) (limit : Nat) :
    List LowStockItem :=
  List.insertionSort shortageGe
    ((InventoryRepository.get_low_stock_items s location_id limit).map toLowStockItem)

/-- complete_reservation route (src/api/routes/reservations.py lines
143-193): a False from mark_as_completed — whether the id is unknown or the
status is terminal — raises NotFoundError. -/
def complete_reservation (s : Store) (rid : ReservationId) :
    Store × Except ApiError Reservation :=
  match ReservationRepository.mark_as_completed s rid with
  | (false, _) => (s, Except.error ApiError.notFound)
  | (true, s2) =>
    match ReservationRepository.get s2 rid with
    | some reservation => (s2, Except.ok reservation)
    | none => (s, Except.error ApiError.notFound)

/-- release_reservation route (src/api/routes/reservations.py lines
216-287): 404 unless an ACTIVE reservation with this id exists; ledger
release first, HTTPException 409 (with rollback) when it fails, and only
then the status flip, all in one transaction. -/
def release_reservation (s : Store) (rid : ReservationId) :
    Store × Except ApiError Reservation :=
  match ReservationRepository.get s rid with
  | none => (s, Except.error ApiError.notFound)
  | some reservation =>
    if reservation.status ≠ ReservationStatus.active then
      (s, Except.error ApiError.notFound)
    else
      match InventoryRepository.release_inventory s reservation.product_id
          reservation.location_id reservation.quantity with
      | (false, _) => (s, Except.error ApiError.conflict)
      | (true, s2) =>
        match ReservationRepository.release_reservation s2 rid with
        | (_, s3) =>
          match ReservationRepository.get s3 rid with
          | some r2 => (s3, Except.ok r2)
          | none => (s, Except.error ApiError.notFound)

end Api

/-- Invariant of §8 of the spec: both counters of every inventory record are
non-negative. -/
def CountersNonNeg (s : Store) : Prop :=
  ∀ inv ∈ s.inventories, 0 ≤ inv.quantity_available ∧ 0 ≤ inv.quantity_reserved

/-- Auxiliary invariant: every reservation row carries a positive quantity
(reservation rows are only ever created by the reserve route, whose request
model enforces `quantity > 0`). -/
def ReservationQuantitiesPos (s : Store) : Prop :=
  ∀ r ∈ s.reservations, 0 < r.quantity

def StoreInv (s : Store) : Prop :=
  CountersNonNeg s ∧ ReservationQuantitiesPos s

/-- One public operation of the system.  The id arguments `iid`/`rid` stand
in for the UUIDs the database generates for new rows. -/
inductive Op where
  | create_location (l : LocationId)
  | create_inventory (p : ProductId) (l : LocationId)
      (quantity_available reorder_point reorder_quantity : Int) (iid : InventoryId)
  | reserve (p : ProductId) (l : LocationId) (quantity : Int)
      (order_id : OrderId) (rid : ReservationId)
  | release (p : ProductId) (l : LocationId) (quantity : Int) (order_id : OrderId)
  | adjust (p : ProductId) (l : LocationId) (quantity_change : Int)
      (ty : AdjustmentType) (reason : Option String) (created_by : String)
  | complete_reservation (rid : ReservationId)
  | release_reservation (rid : ReservationId)
  | expire_reservation (rid : ReservationId)

/-- Effect of one public operation on the store.  The `if` guards are the
request-model validations (src/api/models/inventory.py): `quantity: gt=0`
for reserve and release, `quantity_available: ge=0`, `reorder_point: ge=0`,
`reorder_quantity: ge=1` for create; a request failing validation is
rejected before any handler runs, leaving the store unchanged.  Expiry has
no caller inside src/, so it is the repository transition itself. -/
def applyOp (s : Store) : Op → Store
  | Op.create_location l => { s with locations := s.locations ++ [l] }
  | Op.create_inventory p l qa rp rq iid =>
    if 0 ≤ qa ∧ 0 ≤ rp ∧ 1 ≤ rq then (Api.create_inventory s p l qa rp rq iid).1 else s
  | Op.reserve p l q oid rid =>
    if 0 < q then (Api.reserve_inventory s p l q oid rid).1 else s
  | Op.release p l q oid =>
    if 0 < q then (Api.release_inventory s p l q oid).1 else s
  | Op.adjust p l d ty reason created_by =>
    (Api.adjust_inventory s p l d ty reason created_by).1
  | Op.complete_reservation rid => (Api.complete_reservation s rid).1
  | Op.release_reservation rid => (Api.release_reservation s rid).1
  | Op.expire_reservation rid => (ReservationRepository.mark_as_expired s rid).2

/-- The states reachable from the empty store by public operations. -/
inductive Reachable : Store → Prop where
  | empty : Reachable emptyStore
  | step (s : Store) (op : Op) : Reachable s → Reachable (applyOp s op)

/-- Concrete rows used by the closed evaluation theorems below. -/
def demoInventory : Inventory :=
  { id := 10, product_id := 1, location_id := 2, quantity_available := 5,
    quantity_reserved := 3, reorder_point := 10, reorder_quantity := 100 }

def lowInventory : Inventory :=
  { id := 11, product_id := 3, location_id := 2, quantity_available := 1,
    quantity_reserved := 0, reorder_point := 10, reorder_quantity := 100 }

def highInventory : Inventory :=
  { id := 12, product_id := 4, location_id := 2, quantity_available := 50,
    quantity_reserved := 0, reorder_point := 10, reorder_quantity := 100 }

def demoReservation : Reservation :=
  { id := 7, inventory_id := 10, product_id := 1, location_id := 2,
    order_id := 42, quantity := 3, status := ReservationStatus.active }

/-- An active reservation whose quantity exceeds the record's reserved
counter (obtainable when the counter was consumed by another path). -/
def demoBadReservation : Reservation :=
  { id := 8, inventory_id := 10, product_id := 1, location_id := 2,
    order_id := 43, quantity := 9, status := ReservationStatus.active }

/-- A reservation already in the terminal COMPLETED state. -/
def termReservation : Reservation :=
  { id := 9, inventory_id := 10, product_id := 1, location_id := 2,
    order_id := 44, quantity := 2, status := ReservationStatus.completed }

def demoStore : Store :=
  { locations := [2],
    inventories := [demoInventory, lowInventory, highInventory],
    reservations := [demoReservation, demoBadReservation, termReservation],
    adjustments := [] }

theorem find?_updateFirstBy {α : Type} {p : α → Bool} {f : α → α}
    (hpf : ∀ x, p (f x) = p x) :
    ∀ xs : List α, (updateFirstBy p f xs).find? p = (xs.find? p).map f := by
  intro xs
  induction xs with
  | nil => rfl
  | cons x xs ih =>
    by_cases hx : p x = true
    · simp [updateFirstBy, hx, List.find?_cons_of_pos, hpf x]
    · have hx2 : p x = false := by
        cases h : p x
        · rfl
        · exact absurd h hx
      simp [updateFirstBy, hx2, List.find?_cons_of_neg, ih]

theorem find?_updateFirstBy_of_disjoint {α : Type} {p q : α → Bool} {f : α → α}
    (hqf : ∀ x, q (f x) = q x) (hqp : ∀ x, q x = true → p x = false) :
    ∀ xs : List α, (updateFirstBy p f xs).find? q = xs.find? q := by
  intro xs
  induction xs with
  | nil => rfl
  | cons x xs ih =>
    by_cases hx : p x = true
    · have hq : q x = false := by
        cases h : q x
        · rfl
        · exact absurd (hqp x h) (by simp [hx])
      have hqfx : q (f x) = false := by rw [hqf x, hq]
      simp [updateFirstBy, hx, List.find?_cons_of_neg, hq, hqfx]
    · have hx2 : p x = false := by
        cases h : p x
        · rfl
        · exact absurd h hx
      by_cases hq : q x = true
      · simp [updateFirstBy, hx2, List.find?_cons_of_pos, hq]
      · have hq2 : q x = false := by
          cases h : q x
          · rfl
          · exact absurd h hq
        simp [updateFirstBy, hx2, List.find?_cons_of_neg, hq2, ih]

theorem mem_updateFirstBy {α : Type} {p : α → Bool} {f : α → α} {y : α} :
    ∀ {xs : List α}, y ∈ updateFirstBy p f xs →
      y ∈ xs ∨ ∃ a, xs.find? p = some a ∧ y = f a := by
  intro xs
  induction xs with
  | nil => intro h; exact absurd h (by simp [updateFirstBy])
  | cons x xs ih =>
    intro hy
    by_cases hx : p x = true
    · simp only [updateFirstBy, hx, if_pos] at hy
      rcases List.mem_cons.1 hy with h | h
      · exact Or.inr ⟨x, List.find?_cons_of_pos _ hx, h⟩
      · exact Or.inl (List.mem_cons_of_mem _ h)
    · have hx2 : p x = false := by
        cases h : p x
        · rfl
        · exact absurd h hx
      simp only [updateFirstBy, hx2, Bool.false_eq_true, if_neg, not_false_iff] at hy
      rcases List.mem_cons.1 hy with h | h
      · exact Or.inl (by simp [h])
      · rcases ih h with h2 | ⟨a, ha, hfa⟩
        · exact Or.inl (List.mem_cons_of_mem _ h2)
        · exact Or.inr ⟨a, by rw [List.find?_cons_of_neg _ hx]; exact ha, hfa⟩

theorem updateFirstBy_updateFirstBy {α : Type} {p : α → Bool} {f g : α → α}
    (hpf : ∀ x, p (f x) = p x) :
    ∀ xs : List α,
      updateFirstBy p g (updateFirstBy p f xs) = updateFirstBy p (fun x => g (f x)) xs := by
  intro xs
  induction xs with
  | nil => rfl
  | cons x xs ih =>
    by_cases hx : p x = true
    · simp [updateFirstBy, hx, hpf x]
    · have hx2 : p x = false := by
        cases h : p x
        · rfl
        · exact absurd h hx
      simp [updateFirstBy, hx2, ih]

theorem updateFirstBy_eq_self {α : Type} {p : α → Bool} {f : α → α}
    (hf : ∀ x, p x = true → f x = x) :
    ∀ xs : List α, updateFirstBy p f xs = xs := by
  intro xs
  induction xs with
  | nil => rfl
  | cons x xs ih =>
    by_cases hx : p x = true
    · simp [updateFirstBy, hx, hf x hx]
    · have hx2 : p x = false := by
        cases h : p x
        · rfl
        · exact absurd h hx
      simp [updateFirstBy, hx2, ih]

theorem invKey_true_iff (p : ProductId) (l : LocationId) (x : Inventory) :
    invKey p l x = true ↔ x.product_id = p ∧ x.location_id = l := by
  simp [invKey]

theorem invKey_disjoint {p l p2 l2 : Nat} (h : ¬(p2 = p ∧ l2 = l)) :
    ∀ x : Inventory, invKey p2 l2 x = true → invKey p l x = false := by
  intro x hx
  have hx2 : x.product_id = p2 ∧ x.location_id = l2 := (invKey_true_iff p2 l2 x).1 hx
  rw [Bool.eq_false_iff]
  intro hcon
  have hc2 : x.product_id = p ∧ x.location_id = l := (invKey_true_iff p l x).1 hcon
  exact h ⟨hx2.1.symm.trans hc2.1, hx2.2.symm.trans hc2.2⟩

theorem resKey_true_iff (rid : ReservationId) (x : Reservation) :
    resKey rid x = true ↔ x.id = rid := by
  simp [resKey]

theorem resKey_disjoint {rid rid2 : ReservationId} (h : rid2 ≠ rid) :
    ∀ x : Reservation, resKey rid2 x = true → resKey rid x = false := by
  intro x hx
  have hx2 : x.id = rid2 := (resKey_true_iff rid2 x).1 hx
  rw [Bool.eq_false_iff]
  intro hcon
  exact h ((hx2.symm.trans ((resKey_true_iff rid x).1 hcon)))

/-- Failure condition of the repository reserve operation: False exactly
when the record is absent or short of available stock. -/
theorem reserve_fail_iff (s : Store) (p : ProductId) (l : LocationId) (q : Int) :
    (InventoryRepository.reserve_inventory s p l q).1 = false ↔
      get_by_product_and_location s p l = none ∨
        ∃ inv, get_by_product_and_location s p l = some inv ∧
          inv.quantity_available < q := by
  cases hfind : get_by_product_and_location s p l with
  | none => simp [InventoryRepository.reserve_inventory, hfind]
  | some inv0 =>
    by_cases hlt : inv0.quantity_available < q
    · simp [InventoryRepository.reserve_inventory, hfind, hlt]
    · simp [InventoryRepository.reserve_inventory, hfind, hlt]

/-- A failed reserve performs no mutation at all. -/
theorem reserve_fail_frame (s : Store) (p : ProductId) (l : LocationId) (q : Int)
    (h : (InventoryRepository.reserve_inventory s p l q).1 = false) :
    (InventoryRepository.reserve_inventory s p l q).2 = s := by
  cases hfind : get_by_product_and_location s p l with
  | none => simp [InventoryRepository.reserve_inventory, hfind]
  | some inv0 =>
    by_cases hlt : inv0.quantity_available < q
    · simp [InventoryRepository.reserve_inventory, hfind, hlt]
    · simp [InventoryRepository.reserve_inventory, hfind, hlt] at h

/-- The successful reserve returns True and its sole mutation moves
`q` units from available to reserved on the addressed record. -/
theorem reserve_success_effect (s : Store) (p : ProductId) (l : LocationId)
    (q : Int) (inv : Inventory)
    (hfind : get_by_product_and_location s p l = some inv)
    (hge : ¬ inv.quantity_available < q) :
    (InventoryRepository.reserve_inventory s p l q).1 = true ∧
    get_by_product_and_location (InventoryRepository.reserve_inventory s p l q).2 p l
      = some { inv with quantity_available := inv.quantity_available - q,
                        quantity_reserved := inv.quantity_reserved + q } ∧
    (∀ p2 l2, ¬(p2 = p ∧ l2 = l) →
      get_by_product_and_location (InventoryRepository.reserve_inventory s p l q).2 p2 l2
        = get_by_product_and_location s p2 l2) ∧
    (InventoryRepository.reserve_inventory s p l q).2.reservations = s.reservations ∧
    (InventoryRepository.reserve_inventory s p l q).2.adjustments = s.adjustments ∧
    (InventoryRepository.reserve_inventory s p l q).2.locations = s.locations := by
  have hres : InventoryRepository.reserve_inventory s p l q =
      (true, { s with
        inventories := updateFirstBy (invKey p l) (reserveUpdate q) s.inventories }) := by
    simp [InventoryRepository.reserve_inventory, hfind, hge]
  refine ⟨by rw [hres], ?_, ?_, by rw [hres], by rw [hres], by rw [hres]⟩
  · rw [hres]
    show (updateFirstBy (invKey p l) (reserveUpdate q) s.inventories).find? (invKey p l) = _
    rw [@find?_updateFirstBy Inventory (invKey p l) (reserveUpdate q) (fun x => rfl) s.inventories]
    rw [show s.inventories.find? (invKey p l) = some inv from hfind]
    rfl
  · intro p2 l2 hne
    rw [hres]
    show (updateFirstBy (invKey p l) (reserveUpdate q) s.inventories).find? (invKey p2 l2) = _
    rw [@find?_updateFirstBy_of_disjoint Inventory (invKey p l) (invKey p2 l2) (reserveUpdate q)
      (fun x => rfl) (invKey_disjoint hne) s.inventories]
    rfl

/-- C2: `reserve(product_id, location_id, qty>0)` returns false with no
mutation exactly when the record is absent or `quantity_available < qty`,
and otherwise returns true with the single mutation
`quantity_available -= qty; quantity_reserved += qty`
(src/repositories/inventory.py lines 129-179). -/
theorem reserve_inventory_spec (s : Store) (p : ProductId) (l : LocationId)
    (q : Int) (hq : 0 < q) :
    ((InventoryRepository.reserve_inventory s p l q).1 = false ↔
      get_by_product_and_location s p l = none ∨
        ∃ inv, get_by_product_and_location s p l = some inv ∧
          inv.quantity_available < q) ∧
    ((InventoryRepository.reserve_inventory s p l q).1 = false →
      (InventoryRepository.reserve_inventory s p l q).2 = s) ∧
    (∀ inv, get_by_product_and_location s p l = some inv →
      ¬ inv.quantity_available < q →
      (InventoryRepository.reserve_inventory s p l q).1 = true ∧
      get_by_product_and_location (InventoryRepository.reserve_inventory s p l q).2 p l
        = some { inv with quantity_available := inv.quantity_available - q,
                          quantity_reserved := inv.quantity_reserved + q } ∧
      (∀ p2 l2, ¬(p2 = p ∧ l2 = l) →
        get_by_product_and_location (InventoryRepository.reserve_inventory s p l q).2 p2 l2
          = get_by_product_and_location s p2 l2) ∧
      (InventoryRepository.reserve_inventory s p l q).2.reservations = s.reservations ∧
      (InventoryRepository.reserve_inventory s p l q).2.adjustments = s.adjustments ∧
      (InventoryRepository.reserve_inventory s p l q).2.locations = s.locations) :=
  ⟨reserve_fail_iff s p l q, reserve_fail_frame s p l q,
    fun inv hfind hge => reserve_success_effect s p l q inv hfind hge⟩

/-- Failure condition of the repository release operation. -/
theorem release_fail_iff (s : Store) (p : ProductId) (l : LocationId) (q : Int) :
    (InventoryRepository.release_inventory s p l q).1 = false ↔
      get_by_product_and_location s p l = none ∨
        ∃ inv, get_by_product_and_location s p l = some inv ∧
          inv.quantity_reserved < q := by
  cases hfind : get_by_product_and_location s p l with
  | none => simp [InventoryRepository.release_inventory, hfind]
  | some inv0 =>
    by_cases hlt : inv0.quantity_reserved < q
    · simp [InventoryRepository.release_inventory, hfind, hlt]
    · simp [InventoryRepository.release_inventory, hfind, hlt]

/-- A failed release performs no mutation at all. -/
theorem release_fail_frame (s : Store) (p : ProductId) (l : LocationId) (q : Int)
    (h : (InventoryRepository.release_inventory s p l q).1 = false) :
    (InventoryRepository.release_inventory s p l q).2 = s := by
  cases hfind : get_by_product_and_location s p l with
  | none => simp [InventoryRepository.release_inventory, hfind]
  | some inv0 =>
    by_cases hlt : inv0.quantity_reserved < q
    · simp [InventoryRepository.release_inventory, hfind, hlt]
    · simp [InventoryRepository.release_inventory, hfind, hlt] at h

/-- The successful release returns True and moves `q` units from
reserved back to available on the addressed record, touching nothing else. -/
theorem release_success_effect (s : Store) (p : ProductId) (l : LocationId)
    (q : Int) (inv : Inventory)
    (hfind : get_by_product_and_location s p l = some inv)
    (hge : ¬ inv.quantity_reserved < q) :
    (InventoryRepository.release_inventory s p l q).1 = true ∧
    get_by_product_and_location (InventoryRepository.release_inventory s p l q).2 p l
      = some { inv with quantity_available := inv.quantity_available + q,
                        quantity_reserved := inv.quantity_reserved - q } ∧
    (∀ p2 l2, ¬(p2 = p ∧ l2 = l) →
      get_by_product_and_location (InventoryRepository.release_inventory s p l q).2 p2 l2
        = get_by_product_and_location s p2 l2) ∧
    (InventoryRepository.release_inventory s p l q).2.reservations = s.reservations ∧
    (InventoryRepository.release_inventory s p l q).2.adjustments = s.adjustments ∧
    (InventoryRepository.release_inventory s p l q).2.locations = s.locations := by
  have hres : InventoryRepository.release_inventory s p l q =
      (true, { s with
        inventories := updateFirstBy (invKey p l) (releaseUpdate q) s.inventories }) := by
    simp [InventoryRepository.release_inventory, hfind, hge]
  refine ⟨by rw [hres], ?_, ?_, by rw [hres], by rw [hres], by rw [hres]⟩
  · rw [hres]
    show (updateFirstBy (invKey p l) (releaseUpdate q) s.inventories).find? (invKey p l) = _
    rw [@find?_updateFirstBy Inventory (invKey p l) (releaseUpdate q) (fun x => rfl) s.inventories]
    rw [show s.inventories.find? (invKey p l) = some inv from hfind]
    rfl
  · intro p2 l2 hne
    rw [hres]
    show (updateFirstBy (invKey p l) (releaseUpdate q) s.inventories).find? (invKey p2 l2) = _
    rw [@find?_updateFirstBy_of_disjoint Inventory (invKey p l) (invKey p2 l2) (releaseUpdate q)
      (fun x => rfl) (invKey_disjoint hne) s.inventories]
    rfl

/-- A successful reserve followed by a release of the same quantity on
the same record restores the exact original store. -/
theorem reserve_then_release_roundtrip (s : Store) (p : ProductId)
    (l : LocationId) (q : Int) (inv : Inventory)
    (hfind : get_by_product_and_location s p l = some inv)
    (hge : ¬ inv.quantity_available < q)
    (hr0 : 0 ≤ inv.quantity_reserved) :
    InventoryRepository.release_inventory
      (InventoryRepository.reserve_inventory s p l q).2 p l q = (true, s) := by
  have hres : InventoryRepository.reserve_inventory s p l q =
      (true, { s with
        inventories := updateFirstBy (invKey p l) (reserveUpdate q) s.inventories }) := by
    simp [InventoryRepository.reserve_inventory, hfind, hge]
  rw [hres]
  have hfind2 : get_by_product_and_location
      { s with inventories := updateFirstBy (invKey p l) (reserveUpdate q) s.inventories } p l
      = some (reserveUpdate q inv) := by
    show (updateFirstBy (invKey p l) (reserveUpdate q) s.inventories).find? (invKey p l) = _
    rw [@find?_updateFirstBy Inventory (invKey p l) (reserveUpdate q) (fun x => rfl) s.inventories]
    rw [show s.inventories.find? (invKey p l) = some inv from hfind]
    rfl
  have hguard : ¬ (reserveUpdate q inv).quantity_reserved < q := by
    simp only [reserveUpdate]
    omega
  have hcollapse : updateFirstBy (invKey p l) (releaseUpdate q)
      (updateFirstBy (invKey p l) (reserveUpdate q) s.inventories) = s.inventories := by
    rw [@updateFirstBy_updateFirstBy Inventory (invKey p l) (reserveUpdate q) (releaseUpdate q)
      (fun x => rfl) s.inventories]
    refine updateFirstBy_eq_self ?_ s.inventories
    intro x _
    cases x
    simp [releaseUpdate, reserveUpdate]
  simp [InventoryRepository.release_inventory, hfind2, hguard, hcollapse]

/-- C3: `release(product_id, location_id, qty>0)` returns false with no
mutation exactly when the record is absent or `quantity_reserved < qty`;
otherwise it returns true with the single mutation `quantity_reserved -=
qty; quantity_available += qty`, and a reserve followed by a release of the
same quantity on an otherwise-untouched record restores the original pair
(src/repositories/inventory.py lines 181-231). -/
theorem release_inventory_spec (s : Store) (p : ProductId) (l : LocationId)
    (q : Int) (hq : 0 < q) :
    ((InventoryRepository.release_inventory s p l q).1 = false ↔
      get_by_product_and_location s p l = none ∨
        ∃ inv, get_by_product_and_location s p l = some inv ∧
          inv.quantity_reserved < q) ∧
    ((InventoryRepository.release_inventory s p l q).1 = false →
      (InventoryRepository.release_inventory s p l q).2 = s) ∧
    (∀ inv, get_by_product_and_location s p l = some inv →
      ¬ inv.quantity_reserved < q →
      (InventoryRepository.release_inventory s p l q).1 = true ∧
      get_by_product_and_location (InventoryRepository.release_inventory s p l q).2 p l
        = some { inv with quantity_available := inv.quantity_available + q,
                          quantity_reserved := inv.quantity_reserved - q } ∧
      (∀ p2 l2, ¬(p2 = p ∧ l2 = l) →
        get_by_product_and_location (InventoryRepository.release_inventory s p l q).2 p2 l2
          = get_by_product_and_location s p2 l2) ∧
      (InventoryRepository.release_inventory s p l q).2.reservations = s.reservations ∧
      (InventoryRepository.release_inventory s p l q).2.adjustments = s.adjustments ∧
      (InventoryRepository.release_inventory s p l q).2.locations = s.locations) ∧
    (∀ inv, get_by_product_and_location s p l = some inv →
      ¬ inv.quantity_available < q → 0 ≤ inv.quantity_reserved →
      InventoryRepository.release_inventory
        (InventoryRepository.reserve_inventory s p l q).2 p l q = (true, s)) :=
  ⟨release_fail_iff s p l q, release_fail_frame s p l q,
    fun inv hfind hge => release_success_effect s p l q inv hfind hge,
    fun inv hfind hge hr0 => reserve_then_release_roundtrip s p l q inv hfind hge hr0⟩

/-- Failure condition of the repository adjust operation: False exactly
when the record is absent or the delta would drive available negative. -/
theorem adjust_fail_iff (s : Store) (p : ProductId) (l : LocationId) (d : Int)
    (ty : AdjustmentType) (reason : Option String) (created_by : String) :
    (InventoryRepository.adjust_inventory s p l d ty reason created_by).1 = false ↔
      get_by_product_and_location s p l = none ∨
        ∃ inv, get_by_product_and_location s p l = some inv ∧
          inv.quantity_available + d < 0 := by
  cases hfind : get_by_product_and_location s p l with
  | none => simp [InventoryRepository.adjust_inventory, hfind]
  | some inv0 =>
    by_cases hlt : inv0.quantity_available + d < 0
    · simp [InventoryRepository.adjust_inventory, hfind, hlt]
    · simp [InventoryRepository.adjust_inventory, hfind, hlt]

/-- A failed adjust changes neither the counters nor the adjustment
log. -/
theorem adjust_fail_frame (s : Store) (p : ProductId) (l : LocationId) (d : Int)
    (ty : AdjustmentType) (reason : Option String) (created_by : String)
    (h : (InventoryRepository.adjust_inventory s p l d ty reason created_by).1 = false) :
    (InventoryRepository.adjust_inventory s p l d ty reason created_by).2 = s := by
  cases hfind : get_by_product_and_location s p l with
  | none => simp [InventoryRepository.adjust_inventory, hfind]
  | some inv0 =>
    by_cases hlt : inv0.quantity_available + d < 0
    · simp [InventoryRepository.adjust_inventory, hfind, hlt]
    · simp [InventoryRepository.adjust_inventory, hfind, hlt] at h

/-- The successful adjust returns True, adds `d` to available (reserved
untouched) and appends exactly one adjustment record carrying the same
delta, type, reason and actor. -/
theorem adjust_success_effect (s : Store) (p : ProductId) (l : LocationId)
    (d : Int) (ty : AdjustmentType) (reason : Option String)
    (created_by : String) (inv : Inventory)
    (hfind : get_by_product_and_location s p l = some inv)
    (hge : ¬ inv.quantity_available + d < 0) :
    (InventoryRepository.adjust_inventory s p l d ty reason created_by).1 = true ∧
    get_by_product_and_location
        (InventoryRepository.adjust_inventory s p l d ty reason created_by).2 p l
      = some { inv with quantity_available := inv.quantity_available + d } ∧
    (∀ p2 l2, ¬(p2 = p ∧ l2 = l) →
      get_by_product_and_location
          (InventoryRepository.adjust_inventory s p l d ty reason created_by).2 p2 l2
        = get_by_product_and_location s p2 l2) ∧
    (InventoryRepository.adjust_inventory s p l d ty reason created_by).2.adjustments
      = s.adjustments ++
        [{ inventory_id := inv.id, product_id := p, adjustment_type := ty,
           quantity := d, reason := reason, created_by := created_by }] ∧
    (InventoryRepository.adjust_inventory s p l d ty reason created_by).2.reservations
      = s.reservations ∧
    (InventoryRepository.adjust_inventory s p l d ty reason created_by).2.locations
      = s.locations := by
  have hres : InventoryRepository.adjust_inventory s p l d ty reason created_by =
      (true, { s with
        inventories := updateFirstBy (invKey p l) (adjustUpdate d) s.inventories,
        adjustments := s.adjustments ++
          [{ inventory_id := inv.id, product_id := p, adjustment_type := ty,
             quantity := d, reason := reason, created_by := created_by }] }) := by
    simp [InventoryRepository.adjust_inventory, hfind, hge]
  refine ⟨by rw [hres], ?_, ?_, by rw [hres], by rw [hres], by rw [hres]⟩
  · rw [hres]
    show (updateFirstBy (invKey p l) (adjustUpdate d) s.inventories).find? (invKey p l) = _
    rw [@find?_updateFirstBy Inventory (invKey p l) (adjustUpdate d) (fun x => rfl) s.inventories]
    rw [show s.inventories.find? (invKey p l) = some inv from hfind]
    rfl
  · intro p2 l2 hne
    rw [hres]
    show (updateFirstBy (invKey p l) (adjustUpdate d) s.inventories).find? (invKey p2 l2) = _
    rw [@find?_updateFirstBy_of_disjoint Inventory (invKey p l) (invKey p2 l2) (adjustUpdate d)
      (fun x => rfl) (invKey_disjoint hne) s.inventories]
    rfl

/-- C4: `adjust(product_id, location_id, delta, type, reason, actor)` fails
exactly when the record is absent or `quantity_available + delta < 0`, in
which case neither the counters nor the adjustment log change; otherwise the
sole ledger change is `quantity_available += delta` (reserved untouched) and
exactly one adjustment record with the same delta, type, reason and actor is
appended in the same transaction (src/repositories/inventory.py lines
233-312). -/
theorem adjust_inventory_spec (s : Store) (p : ProductId) (l : LocationId)
    (d : Int) (ty : AdjustmentType) (reason : Option String)
    (created_by : String) :
    ((InventoryRepository.adjust_inventory s p l d ty reason created_by).1 = false ↔
      get_by_product_and_location s p l = none ∨
        ∃ inv, get_by_product_and_location s p l = some inv ∧
          inv.quantity_available + d < 0) ∧
    ((InventoryRepository.adjust_inventory s p l d ty reason created_by).1 = false →
      (InventoryRepository.adjust_inventory s p l d ty reason created_by).2 = s) ∧
    (∀ inv, get_by_product_and_location s p l = some inv →
      ¬ inv.quantity_available + d < 0 →
      (InventoryRepository.adjust_inventory s p l d ty reason created_by).1 = true ∧
      get_by_product_and_location
          (InventoryRepository.adjust_inventory s p l d ty reason created_by).2 p l
        = some { inv with quantity_available := inv.quantity_available + d } ∧
      (∀ p2 l2, ¬(p2 = p ∧ l2 = l) →
        get_by_product_and_location
            (InventoryRepository.adjust_inventory s p l d ty reason created_by).2 p2 l2
          = get_by_product_and_location s p2 l2) ∧
      (InventoryRepository.adjust_inventory s p l d ty reason created_by).2.adjustments
        = s.adjustments ++
          [{ inventory_id := inv.id, product_id := p, adjustment_type := ty,
             quantity := d, reason := reason, created_by := created_by }] ∧
      (InventoryRepository.adjust_inventory s p l d ty reason created_by).2.reservations
        = s.reservations ∧
      (InventoryRepository.adjust_inventory s p l d ty reason created_by).2.locations
        = s.locations) :=
  ⟨adjust_fail_iff s p l d ty reason created_by,
    adjust_fail_frame s p l d ty reason created_by,
    fun inv hfind hge => adjust_success_effect s p l d ty reason created_by inv hfind hge⟩

theorem get_setReservationStatus_self (s : Store) (rid : ReservationId)
    (st : ReservationStatus) (r : Reservation)
    (hfind : ReservationRepository.get s rid = some r) :
    ReservationRepository.get (setReservationStatus s rid st) rid
      = some (Reservation.setStatus st r) := by
  show (updateFirstBy (resKey rid) (Reservation.setStatus st) s.reservations).find? (resKey rid) = _
  rw [@find?_updateFirstBy Reservation (resKey rid) (Reservation.setStatus st)
    (fun x => rfl) s.reservations]
  rw [show s.reservations.find? (resKey rid) = some r from hfind]
  rfl

theorem get_setReservationStatus_other (s : Store) (rid rid2 : ReservationId)
    (st : ReservationStatus) (hne : rid2 ≠ rid) :
    ReservationRepository.get (setReservationStatus s rid st) rid2
      = ReservationRepository.get s rid2 := by
  show (updateFirstBy (resKey rid) (Reservation.setStatus st) s.reservations).find? (resKey rid2) = _
  rw [@find?_updateFirstBy_of_disjoint Reservation (resKey rid) (resKey rid2)
    (Reservation.setStatus st) (fun x => rfl) (resKey_disjoint hne) s.reservations]
  rfl

/-- Any of the three transition operations returns False with no mutation
when the reservation is missing or not ACTIVE. -/
theorem transition_fail_of_not_active (s : Store) (rid : ReservationId)
    (r : Reservation) (hfind : ReservationRepository.get s rid = some r)
    (hst : r.status ≠ ReservationStatus.active) :
    ReservationRepository.mark_as_completed s rid = (false, s) ∧
    ReservationRepository.release_reservation s rid = (false, s) ∧
    ReservationRepository.mark_as_expired s rid = (false, s) := by
  refine ⟨?_, ?_, ?_⟩
  · simp [ReservationRepository.mark_as_completed, hfind, hst]
  · simp [ReservationRepository.release_reservation, hfind, hst]
  · simp [ReservationRepository.mark_as_expired, hfind, hst]

theorem mark_as_completed_success (s : Store) (rid : ReservationId) (s2 : Store)
    (h : ReservationRepository.mark_as_completed s rid = (true, s2)) :
    ∃ r, ReservationRepository.get s rid = some r ∧
      r.status = ReservationStatus.active ∧
      s2 = setReservationStatus s rid ReservationStatus.completed := by
  cases hfind : ReservationRepository.get s rid with
  | none => simp [ReservationRepository.mark_as_completed, hfind] at h
  | some r =>
    by_cases hst : r.status = ReservationStatus.active
    · refine ⟨r, rfl, hst, ?_⟩
      have h2 := h
      simp [ReservationRepository.mark_as_completed, hfind, hst] at h2
      exact h2.symm
    · simp [ReservationRepository.mark_as_completed, hfind, hst] at h

theorem release_reservation_success (s : Store) (rid : ReservationId) (s2 : Store)
    (h : ReservationRepository.release_reservation s rid = (true, s2)) :
    ∃ r, ReservationRepository.get s rid = some r ∧
      r.status = ReservationStatus.active ∧
      s2 = setReservationStatus s rid ReservationStatus.released := by
  cases hfind : ReservationRepository.get s rid with
  | none => simp [ReservationRepository.release_reservation, hfind] at h
  | some r =>
    by_cases hst : r.status = ReservationStatus.active
    · refine ⟨r, rfl, hst, ?_⟩
      have h2 := h
      simp [ReservationRepository.release_reservation, hfind, hst] at h2
      exact h2.symm
    · simp [ReservationRepository.release_reservation, hfind, hst] at h

theorem mark_as_expired_success (s : Store) (rid : ReservationId) (s2 : Store)
    (h : ReservationRepository.mark_as_expired s rid = (true, s2)) :
    ∃ r, ReservationRepository.get s rid = some r ∧
      r.status = ReservationStatus.active ∧
      s2 = setReservationStatus s rid ReservationStatus.expired := by
  cases hfind : ReservationRepository.get s rid with
  | none => simp [ReservationRepository.mark_as_expired, hfind] at h
  | some r =>
    by_cases hst : r.status = ReservationStatus.active
    · refine ⟨r, rfl, hst, ?_⟩
      have h2 := h
      simp [ReservationRepository.mark_as_expired, hfind, hst] at h2
      exact h2.symm
    · simp [ReservationRepository.mark_as_expired, hfind, hst] at h

/-- After a successful transition to `st ≠ active`, every further transition
attempt on the same id fails with no mutation. -/
theorem transitions_fail_after_success (s s2 : Store) (rid : ReservationId)
    (r : Reservation) (st : ReservationStatus)
    (hfind : ReservationRepository.get s rid = some r)
    (hst : st ≠ ReservationStatus.active)
    (hs2 : s2 = setReservationStatus s rid st) :
    ReservationRepository.mark_as_completed s2 rid = (false, s2) ∧
    ReservationRepository.release_reservation s2 rid = (false, s2) ∧
    ReservationRepository.mark_as_expired s2 rid = (false, s2) := by
  have hget2 : ReservationRepository.get s2 rid = some (Reservation.setStatus st r) := by
    rw [hs2]
    exact get_setReservationStatus_self s rid st r hfind
  exact transition_fail_of_not_active s2 rid (Reservation.setStatus st r) hget2 hst

/-- C5: reservations in a terminal state (released, completed or expired)
admit no further transition: complete, release and expire all return False
and leave the store unchanged, and after any successful transition out of
ACTIVE the second attempt fails (src/repositories/reservation.py lines
129-220). -/
theorem reservation_terminal_spec (s : Store) (rid : ReservationId) :
    (∀ r, ReservationRepository.get s rid = some r →
      (r.status = ReservationStatus.released ∨
        r.status = ReservationStatus.completed ∨
        r.status = ReservationStatus.expired) →
      ReservationRepository.mark_as_completed s rid = (false, s) ∧
      ReservationRepository.release_reservation s rid = (false, s) ∧
      ReservationRepository.mark_as_expired s rid = (false, s)) ∧
    (∀ s2, ReservationRepository.mark_as_completed s rid = (true, s2) →
      ReservationRepository.mark_as_completed s2 rid = (false, s2) ∧
      ReservationRepository.release_reservation s2 rid = (false, s2) ∧
      ReservationRepository.mark_as_expired s2 rid = (false, s2)) ∧
    (∀ s2, ReservationRepository.release_reservation s rid = (true, s2) →
      ReservationRepository.mark_as_completed s2 rid = (false, s2) ∧
      ReservationRepository.release_reservation s2 rid = (false, s2) ∧
      ReservationRepository.mark_as_expired s2 rid = (false, s2)) ∧
    (∀ s2, ReservationRepository.mark_as_expired s rid = (true, s2) →
      ReservationRepository.mark_as_completed s2 rid = (false, s2) ∧
      ReservationRepository.release_reservation s2 rid = (false, s2) ∧
      ReservationRepository.mark_as_expired s2 rid = (false, s2)) := by
  refine ⟨?_, ?_, ?_, ?_⟩
  · intro r hfind hterm
    have hst : r.status ≠ ReservationStatus.active := by
      rcases hterm with h | h | h <;> rw [h] <;> intro hc <;> cases hc
    exact transition_fail_of_not_active s rid r hfind hst
  · intro s2 h
    rcases mark_as_completed_success s rid s2 h with ⟨r, hfind, _, hs2⟩
    exact transitions_fail_after_success s s2 rid r ReservationStatus.completed hfind
      (by intro hc; cases hc) hs2
  · intro s2 h
    rcases release_reservation_success s rid s2 h with ⟨r, hfind, _, hs2⟩
    exact transitions_fail_after_success s s2 rid r ReservationStatus.released hfind
      (by intro hc; cases hc) hs2
  · intro s2 h
    rcases mark_as_expired_success s rid s2 h with ⟨r, hfind, _, hs2⟩
    exact transitions_fail_after_success s s2 rid r ReservationStatus.expired hfind
      (by intro hc; cases hc) hs2

/-- Inversion of a successful run of the complete_reservation route. -/
theorem complete_route_ok (s : Store) (rid : ReservationId) (s2 : Store)
    (r2 : Reservation)
    (h : Api.complete_reservation s rid = (s2, Except.ok r2)) :
    ∃ r, ReservationRepository.get s rid = some r ∧
      r.status = ReservationStatus.active ∧
      s2 = setReservationStatus s rid ReservationStatus.completed ∧
      r2 = Reservation.setStatus ReservationStatus.completed r := by
  cases hmc : ReservationRepository.mark_as_completed s rid with
  | mk b s3 =>
    cases b with
    | false => simp [Api.complete_reservation, hmc] at h
    | true =>
      rcases mark_as_completed_success s rid s3 hmc with ⟨r, hfind, hact, hs3⟩
      have hget3 : ReservationRepository.get s3 rid
          = some (Reservation.setStatus ReservationStatus.completed r) := by
        rw [hs3]
        exact get_setReservationStatus_self s rid ReservationStatus.completed r hfind
      have h2 := h
      simp [Api.complete_reservation, hmc, hget3] at h2
      exact ⟨r, hfind, hact, by rw [← h2.1, hs3], h2.2.symm⟩

/-- C6: a successful complete_reservation changes only the reservation's
status to COMPLETED: every inventory record, in particular both of its
counters, and the adjustment log are untouched, and every other reservation
is untouched (src/repositories/reservation.py lines 129-158,
src/api/routes/reservations.py lines 143-193). -/
theorem complete_reservation_frame (s : Store) (rid : ReservationId)
    (s2 : Store) (r2 : Reservation)
    (h : Api.complete_reservation s rid = (s2, Except.ok r2)) :
    s2.inventories = s.inventories ∧
    s2.adjustments = s.adjustments ∧
    s2.locations = s.locations ∧
    (∀ p l, get_by_product_and_location s2 p l = get_by_product_and_location s p l) ∧
    r2.status = ReservationStatus.completed ∧
    (∃ r, ReservationRepository.get s rid = some r ∧
      r.status = ReservationStatus.active ∧
      r2 = Reservation.setStatus ReservationStatus.completed r ∧
      r2.quantity = r.quantity ∧
      ReservationRepository.get s2 rid = some r2) ∧
    (∀ rid2, rid2 ≠ rid →
      ReservationRepository.get s2 rid2 = ReservationRepository.get s rid2) := by
  rcases complete_route_ok s rid s2 r2 h with ⟨r, hfind, hact, hs2, hr2⟩
  subst hs2
  refine ⟨rfl, rfl, rfl, fun p l => rfl, by rw [hr2]; rfl, ?_, ?_⟩
  · refine ⟨r, hfind, hact, hr2, by rw [hr2]; rfl, ?_⟩
    rw [hr2]
    exact get_setReservationStatus_self s rid ReservationStatus.completed r hfind
  · intro rid2 hne
    exact get_setReservationStatus_other s rid rid2 ReservationStatus.completed hne

/-- C7: in the release_reservation route, when the ledger-side release fails
on an ACTIVE reservation, the route reports failure (HTTP 409) and rolls
back, so the reservation's status is still ACTIVE in the resulting store
(src/api/routes/reservations.py lines 216-287). -/
theorem release_reservation_route_atomic (s : Store) (rid : ReservationId)
    (r : Reservation)
    (hfind : ReservationRepository.get s rid = some r)
    (hact : r.status = ReservationStatus.active)
    (hfail : (InventoryRepository.release_inventory s r.product_id
      r.location_id r.quantity).1 = false) :
    Api.release_reservation s rid = (s, Except.error ApiError.conflict) ∧
    ReservationRepository.get (Api.release_reservation s rid).1 rid = some r ∧
    r.status = ReservationStatus.active := by
  have hroute : Api.release_reservation s rid = (s, Except.error ApiError.conflict) := by
    cases hrel : InventoryRepository.release_inventory s r.product_id
        r.location_id r.quantity with
    | mk b s2 =>
      have hb : b = false := by rw [← hfail, hrel]
      subst hb
      simp [Api.release_reservation, hfind, hact, hrel]
  exact ⟨hroute, by rw [hroute]; exact hfind, hact⟩

/-- C8 evaluation: for a reservation that exists in the terminal COMPLETED
state, both transition routes signal the same NotFound error they signal for
an id that does not exist at all, instead of a distinct conflict outcome
(src/api/routes/reservations.py lines 150-158 and 227-232). -/
theorem wrong_status_signals_notFound :
    ReservationRepository.get demoStore 9 = some termReservation ∧
    termReservation.status = ReservationStatus.completed ∧
    (Api.complete_reservation demoStore 9).2 = Except.error ApiError.notFound ∧
    (Api.release_reservation demoStore 9).2 = Except.error ApiError.notFound ∧
    ReservationRepository.get demoStore 99 = none ∧
    (Api.complete_reservation demoStore 99).2 = Except.error ApiError.notFound ∧
    (Api.release_reservation demoStore 99).2 = Except.error ApiError.notFound :=
  ⟨rfl, rfl, rfl, rfl, rfl, rfl, rfl⟩

/-- C9: every item returned by the low-stock route comes from an inventory
record with `quantity_available ≤ reorder_point` (matching the location
filter when one is given) annotated with `shortage = reorder_point -
quantity_available`; the list is sorted by shortage descending and no longer
than `limit` (src/repositories/inventory.py lines 111-127,
src/api/routes/inventory.py lines 519-564). -/
theorem get_low_stock_spec (s : Store) (loc : Option LocationId) (limit : Nat) :
    (∀ item ∈ Api.get_low_stock s loc limit,
      ∃ inv, inv ∈ s.inventories ∧
        inv.quantity_available ≤ inv.reorder_point ∧
        (∀ l0, loc = some l0 → inv.location_id = l0) ∧
        item = Api.toLowStockItem inv ∧
        item.shortage = inv.reorder_point - inv.quantity_available) ∧
    (Api.get_low_stock s loc limit).Pairwise
      (fun a b => b.shortage ≤ a.shortage) ∧
    (Api.get_low_stock s loc limit).length ≤ limit := by
  have hperm : List.Perm (Api.get_low_stock s loc limit)
      ((InventoryRepository.get_low_stock_items s loc limit).map Api.toLowStockItem) :=
    List.perm_insertionSort Api.shortageGe _
  refine ⟨?_, ?_, ?_⟩
  · intro item hitem
    have hmem : item ∈ (InventoryRepository.get_low_stock_items s loc limit).map
        Api.toLowStockItem := hperm.subset hitem
    rcases List.mem_map.1 hmem with ⟨inv, hinv, hitem_eq⟩
    have hinv2 : inv ∈ (InventoryRepository.get_low_stock_items s loc limit) := hinv
    rw [InventoryRepository.get_low_stock_items.eq_def] at hinv2
    cases loc with
    | none =>
      have hinv3 := List.take_subset limit _ hinv2
      have hfil := List.mem_filter.1 hinv3
      refine ⟨inv, hfil.1, of_decide_eq_true hfil.2, ?_, hitem_eq.symm, ?_⟩
      · intro l0 hl0
        cases hl0
      · rw [← hitem_eq]
        rfl
    | some l0 =>
      have hinv3 := List.take_subset limit _ hinv2
      have hfil := List.mem_filter.1 hinv3
      have hfil2 := List.mem_filter.1 hfil.1
      refine ⟨inv, hfil2.1, of_decide_eq_true hfil2.2, ?_, hitem_eq.symm, ?_⟩
      · intro l1 hl1
        cases hl1
        exact eq_of_beq hfil.2
      · rw [← hitem_eq]
        rfl
  · exact List.sorted_insertionSort Api.shortageGe _
  · rw [hperm.length_eq, List.length_map]
    rw [InventoryRepository.get_low_stock_items.eq_def]
    cases loc with
    | none => exact List.length_take_le limit _
    | some l0 => exact List.length_take_le limit _

/-- C10: the public releaseInventory operation recognizes only an exact
match: it fails with NotFound and leaves the store unchanged whenever no
ACTIVE reservation of the order matches the requested product, location and
quantity exactly, and any successful run implies such an exact match existed
(src/api/routes/inventory.py lines 284-300). -/
theorem release_route_exact_match (s : Store) (p : ProductId) (l : LocationId)
    (q : Int) (oid : OrderId) :
    ((∀ res ∈ ReservationRepository.get_active_by_order s oid,
        ¬(res.product_id = p ∧ res.quantity = q ∧ res.location_id = l)) →
      Api.release_inventory s p l q oid = (s, Except.error ApiError.notFound)) ∧
    (∀ s2 inv, Api.release_inventory s p l q oid = (s2, Except.ok inv) →
      ∃ res, res ∈ ReservationRepository.get_active_by_order s oid ∧
        res.product_id = p ∧ res.quantity = q ∧ res.location_id = l ∧
        res.order_id = oid ∧ res.status = ReservationStatus.active) := by
  constructor
  · intro hall
    have hnone : (ReservationRepository.get_active_by_order s oid).find?
        (fun res => res.product_id == p && res.quantity == q && res.location_id == l)
        = none := by
      rw [List.find?_eq_none]
      intro x hx hcon
      have hcon2 : x.product_id = p ∧ x.quantity = q ∧ x.location_id = l := by
        have := hcon
        simp [Bool.and_eq_true] at this
        exact ⟨this.1.1, this.1.2, this.2⟩
      exact hall x hx hcon2
    simp [Api.release_inventory, hnone]
  · intro s2 inv h
    cases hfind : (ReservationRepository.get_active_by_order s oid).find?
        (fun res => res.product_id == p && res.quantity == q && res.location_id == l) with
    | none => simp [Api.release_inventory, hfind] at h
    | some res =>
      have hmem : res ∈ ReservationRepository.get_active_by_order s oid :=
        List.mem_of_find?_eq_some hfind
      have hpred := List.find?_some hfind
      simp [Bool.and_eq_true] at hpred
      have hmem2 := List.mem_filter.1 hmem
      have hflags : res.order_id = oid ∧ res.status = ReservationStatus.active := by
        have := hmem2.2
        simp [Bool.and_eq_true] at this
        exact this
      exact ⟨res, hmem, hpred.1.1, hpred.1.2, hpred.2, hflags.1, hflags.2⟩

theorem reserve_repo_counters (s : Store) (p : ProductId) (l : LocationId)
    (q : Int) (hq : 0 ≤ q) (h : CountersNonNeg s) :
    CountersNonNeg (InventoryRepository.reserve_inventory s p l q).2 := by
  cases hfind : get_by_product_and_location s p l with
  | none =>
    have heq : (InventoryRepository.reserve_inventory s p l q).2 = s := by
      simp [InventoryRepository.reserve_inventory, hfind]
    rw [heq]
    exact h
  | some inv =>
    by_cases hlt : inv.quantity_available < q
    · have heq : (InventoryRepository.reserve_inventory s p l q).2 = s := by
        simp [InventoryRepository.reserve_inventory, hfind, hlt]
      rw [heq]
      exact h
    · have heq : (InventoryRepository.reserve_inventory s p l q).2 = { s with
        inventories := updateFirstBy (invKey p l) (reserveUpdate q) s.inventories } := by
        simp [InventoryRepository.reserve_inventory, hfind, hlt]
      rw [heq]
      intro y hy
      rcases mem_updateFirstBy hy with hmem | ⟨a, ha, hya⟩
      · exact h y hmem
      · have ha2 : get_by_product_and_location s p l = some a := ha
        rw [hfind] at ha2
        have haeq : inv = a := Option.some.inj ha2
        have hmeminv : inv ∈ s.inventories :=
          List.mem_of_find?_eq_some
            (show s.inventories.find? (invKey p l) = some inv from hfind)
        obtain ⟨hnn1, hnn2⟩ := h inv hmeminv
        rw [hya, ← haeq]
        constructor
        · show 0 ≤ inv.quantity_available - q
          omega
        · show 0 ≤ inv.quantity_reserved + q
          omega

theorem release_repo_counters (s : Store) (p : ProductId) (l : LocationId)
    (q : Int) (hq : 0 ≤ q) (h : CountersNonNeg s) :
    CountersNonNeg (InventoryRepository.release_inventory s p l q).2 := by
  cases hfind : get_by_product_and_location s p l with
  | none =>
    have heq : (InventoryRepository.release_inventory s p l q).2 = s := by
      simp [InventoryRepository.release_inventory, hfind]
    rw [heq]
    exact h
  | some inv =>
    by_cases hlt : inv.quantity_reserved < q
    · have heq : (InventoryRepository.release_inventory s p l q).2 = s := by
        simp [InventoryRepository.release_inventory, hfind, hlt]
      rw [heq]
      exact h
    · have heq : (InventoryRepository.release_inventory s p l q).2 = { s with
        inventories := updateFirstBy (invKey p l) (releaseUpdate q) s.inventories } := by
        simp [InventoryRepository.release_inventory, hfind, hlt]
      rw [heq]
      intro y hy
      rcases mem_updateFirstBy hy with hmem | ⟨a, ha, hya⟩
      · exact h y hmem
      · have ha2 : get_by_product_and_location s p l = some a := ha
        rw [hfind] at ha2
        have haeq : inv = a := Option.some.inj ha2
        have hmeminv : inv ∈ s.inventories :=
          List.mem_of_find?_eq_some
            (show s.inventories.find? (invKey p l) = some inv from hfind)
        obtain ⟨hnn1, hnn2⟩ := h inv hmeminv
        rw [hya, ← haeq]
        constructor
        · show 0 ≤ inv.quantity_available + q
          omega
        · show 0 ≤ inv.quantity_reserved - q
          omega

theorem adjust_repo_counters (s : Store) (p : ProductId) (l : LocationId)
    (d : Int) (ty : AdjustmentType) (reason : Option String) (created_by : String)
    (h : CountersNonNeg s) :
    CountersNonNeg (InventoryRepository.adjust_inventory s p l d ty reason created_by).2 := by
  cases hfind : get_by_product_and_location s p l with
  | none =>
    have heq : (InventoryRepository.adjust_inventory s p l d ty reason created_by).2 = s := by
      simp [InventoryRepository.adjust_inventory, hfind]
    rw [heq]
    exact h
  | some inv =>
    by_cases hlt : inv.quantity_available + d < 0
    · have heq : (InventoryRepository.adjust_inventory s p l d ty reason created_by).2 = s := by
        simp [InventoryRepository.adjust_inventory, hfind, hlt]
      rw [heq]
      exact h
    · have heq2 : ((InventoryRepository.adjust_inventory s p l d ty reason created_by).2).inventories
          = updateFirstBy (invKey p l) (adjustUpdate d) s.inventories := by
        simp [InventoryRepository.adjust_inventory, hfind, hlt]
      intro y hy
      rw [heq2] at hy
      rcases mem_updateFirstBy hy with hmem | ⟨a, ha, hya⟩
      · exact h y hmem
      · have ha2 : get_by_product_and_location s p l = some a := ha
        rw [hfind] at ha2
        have haeq : inv = a := Option.some.inj ha2
        have hmeminv : inv ∈ s.inventories :=
          List.mem_of_find?_eq_some
            (show s.inventories.find? (invKey p l) = some inv from hfind)
        obtain ⟨hnn1, hnn2⟩ := h inv hmeminv
        rw [hya, ← haeq]
        constructor
        · show 0 ≤ inv.quantity_available + d
          omega
        · show 0 ≤ inv.quantity_reserved
          omega

theorem reserve_repo_reservations (s : Store) (p : ProductId) (l : LocationId)
    (q : Int) :
    (InventoryRepository.reserve_inventory s p l q).2.reservations = s.reservations := by
  cases hfind : get_by_product_and_location s p l with
  | none => simp [InventoryRepository.reserve_inventory, hfind]
  | some inv =>
    by_cases hlt : inv.quantity_available < q
    · simp [InventoryRepository.reserve_inventory, hfind, hlt]
    · simp [InventoryRepository.reserve_inventory, hfind, hlt]

theorem release_repo_reservations (s : Store) (p : ProductId) (l : LocationId)
    (q : Int) :
    (InventoryRepository.release_inventory s p l q).2.reservations = s.reservations := by
  cases hfind : get_by_product_and_location s p l with
  | none => simp [InventoryRepository.release_inventory, hfind]
  | some inv =>
    by_cases hlt : inv.quantity_reserved < q
    · simp [InventoryRepository.release_inventory, hfind, hlt]
    · simp [InventoryRepository.release_inventory, hfind, hlt]

theorem adjust_repo_reservations (s : Store) (p : ProductId) (l : LocationId)
    (d : Int) (ty : AdjustmentType) (reason : Option String) (created_by : String) :
    (InventoryRepository.adjust_inventory s p l d ty reason created_by).2.reservations
      = s.reservations := by
  cases hfind : get_by_product_and_location s p l with
  | none => simp [InventoryRepository.adjust_inventory, hfind]
  | some inv =>
    by_cases hlt : inv.quantity_available + d < 0
    · simp [InventoryRepository.adjust_inventory, hfind, hlt]
    · simp [InventoryRepository.adjust_inventory, hfind, hlt]

theorem quantitiesPos_setReservationStatus (s : Store) (rid : ReservationId)
    (st : ReservationStatus) (h : ReservationQuantitiesPos s) :
    ReservationQuantitiesPos (setReservationStatus s rid st) := by
  intro y hy
  rcases mem_updateFirstBy hy with hmem | ⟨a, ha, hya⟩
  · exact h y hmem
  · have hamem : a ∈ s.reservations := List.mem_of_find?_eq_some ha
    have := h a hamem
    rw [hya]
    exact this

theorem mark_as_completed_repo_inv (s : Store) (rid : ReservationId)
    (h : StoreInv s) :
    StoreInv (ReservationRepository.mark_as_completed s rid).2 := by
  cases hfind : ReservationRepository.get s rid with
  | none =>
    have heq : (ReservationRepository.mark_as_completed s rid).2 = s := by
      simp [ReservationRepository.mark_as_completed, hfind]
    rw [heq]
    exact h
  | some r =>
    by_cases hst : r.status = ReservationStatus.active
    · have heq : (ReservationRepository.mark_as_completed s rid).2
          = setReservationStatus s rid ReservationStatus.completed := by
        simp [ReservationRepository.mark_as_completed, hfind, hst]
      rw [heq]
      exact ⟨h.1, quantitiesPos_setReservationStatus s rid _ h.2⟩
    · have heq : (ReservationRepository.mark_as_completed s rid).2 = s := by
        simp [ReservationRepository.mark_as_completed, hfind, hst]
      rw [heq]
      exact h

theorem mark_as_expired_repo_inv (s : Store) (rid : ReservationId)
    (h : StoreInv s) :
    StoreInv (ReservationRepository.mark_as_expired s rid).2 := by
  cases hfind : ReservationRepository.get s rid with
  | none =>
    have heq : (ReservationRepository.mark_as_expired s rid).2 = s := by
      simp [ReservationRepository.mark_as_expired, hfind]
    rw [heq]
    exact h
  | some r =>
    by_cases hst : r.status = ReservationStatus.active
    · have heq : (ReservationRepository.mark_as_expired s rid).2
          = setReservationStatus s rid ReservationStatus.expired := by
        simp [ReservationRepository.mark_as_expired, hfind, hst]
      rw [heq]
      exact ⟨h.1, quantitiesPos_setReservationStatus s rid _ h.2⟩
    · have heq : (ReservationRepository.mark_as_expired s rid).2 = s := by
        simp [ReservationRepository.mark_as_expired, hfind, hst]
      rw [heq]
      exact h

theorem release_reservation_repo_inv (s : Store) (rid : ReservationId)
    (h : StoreInv s) :
    StoreInv (ReservationRepository.release_reservation s rid).2 := by
  cases hfind : ReservationRepository.get s rid with
  | none =>
    have heq : (ReservationRepository.release_reservation s rid).2 = s := by
      simp [ReservationRepository.release_reservation, hfind]
    rw [heq]
    exact h
  | some r =>
    by_cases hst : r.status = ReservationStatus.active
    · have heq : (ReservationRepository.release_reservation s rid).2
          = setReservationStatus s rid ReservationStatus.released := by
        simp [ReservationRepository.release_reservation, hfind, hst]
      rw [heq]
      exact ⟨h.1, quantitiesPos_setReservationStatus s rid _ h.2⟩
    · have heq : (ReservationRepository.release_reservation s rid).2 = s := by
        simp [ReservationRepository.release_reservation, hfind, hst]
      rw [heq]
      exact h

theorem release_reservation_repo_inventories (s : Store) (rid : ReservationId) :
    (ReservationRepository.release_reservation s rid).2.inventories = s.inventories := by
  cases hfind : ReservationRepository.get s rid with
  | none => simp [ReservationRepository.release_reservation, hfind]
  | some r =>
    by_cases hst : r.status = ReservationStatus.active
    · simp [ReservationRepository.release_reservation, hfind, hst, setReservationStatus]
    · simp [ReservationRepository.release_reservation, hfind, hst]

theorem storeInv_create_inventory_route (s : Store) (p : ProductId)
    (l : LocationId) (qa rp rq : Int) (iid : InventoryId)
    (hqa : 0 ≤ qa) (h : StoreInv s) :
    StoreInv (Api.create_inventory s p l qa rp rq iid).1 := by
  by_cases hloc : l ∈ s.locations
  · cases hfind : get_by_product_and_location s p l with
    | some inv =>
      have heq : (Api.create_inventory s p l qa rp rq iid).1 = s := by
        simp [Api.create_inventory, hloc, hfind]
      rw [heq]
      exact h
    | none =>
      have heq : (Api.create_inventory s p l qa rp rq iid).1 = { s with
        inventories := s.inventories ++
          [{ id := iid, product_id := p, location_id := l,
             quantity_available := qa, quantity_reserved := 0,
             reorder_point := rp, reorder_quantity := rq }] } := by
        simp [Api.create_inventory, hloc, hfind]
      rw [heq]
      constructor
      · intro y hy
        rcases List.mem_append.1 hy with hmem | hmem
        · exact h.1 y hmem
        · have hyeq := List.mem_singleton.1 hmem
          rw [hyeq]
          exact ⟨hqa, le_refl 0⟩
      · exact h.2
  · have heq : (Api.create_inventory s p l qa rp rq iid).1 = s := by
      simp [Api.create_inventory, hloc]
    rw [heq]
    exact h

theorem storeInv_reserve_route (s : Store) (p : ProductId) (l : LocationId)
    (q : Int) (oid : OrderId) (rid : ReservationId)
    (hq : 0 < q) (h : StoreInv s) :
    StoreInv (Api.reserve_inventory s p l q oid rid).1 := by
  cases hfind : get_by_product_and_location s p l with
  | none =>
    have heq : (Api.reserve_inventory s p l q oid rid).1 = s := by
      simp [Api.reserve_inventory, hfind]
    rw [heq]
    exact h
  | some inv =>
    cases hrr : InventoryRepository.reserve_inventory s p l q with
    | mk b s2 =>
      cases b with
      | false =>
        have heq : (Api.reserve_inventory s p l q oid rid).1 = s := by
          simp [Api.reserve_inventory, hfind, hrr]
        rw [heq]
        exact h
      | true =>
        have hs2c : CountersNonNeg s2 := by
          have hc := reserve_repo_counters s p l q (le_of_lt hq) h.1
          rw [hrr] at hc
          exact hc
        have hs2r : s2.reservations = s.reservations := by
          have hc := reserve_repo_reservations s p l q
          rw [hrr] at hc
          exact hc
        simp only [Api.reserve_inventory, hfind, hrr]
        split
        · constructor
          · intro y hy
            exact hs2c y hy
          · intro y hy
            rcases List.mem_append.1 hy with hmem | hmem
            · rw [hs2r] at hmem
              exact h.2 y hmem
            · have hyeq := List.mem_singleton.1 hmem
              rw [hyeq]
              exact hq
        · exact h

theorem storeInv_release_route (s : Store) (p : ProductId) (l : LocationId)
    (q : Int) (oid : OrderId) (hq : 0 < q) (h : StoreInv s) :
    StoreInv (Api.release_inventory s p l q oid).1 := by
  cases hfindres : (ReservationRepository.get_active_by_order s oid).find?
      (fun res => res.product_id == p && res.quantity == q && res.location_id == l) with
  | none =>
    have heq : (Api.release_inventory s p l q oid).1 = s := by
      simp [Api.release_inventory, hfindres]
    rw [heq]
    exact h
  | some res =>
    cases hrel : InventoryRepository.release_inventory s p l q with
    | mk b s2 =>
      cases b with
      | false =>
        have heq : (Api.release_inventory s p l q oid).1 = s := by
          simp [Api.release_inventory, hfindres, hrel]
        rw [heq]
        exact h
      | true =>
        have hs2inv : StoreInv s2 := by
          constructor
          · have hc := release_repo_counters s p l q (le_of_lt hq) h.1
            rw [hrel] at hc
            exact hc
          · have hc := release_repo_reservations s p l q
            rw [hrel] at hc
            intro y hy
            rw [hc] at hy
            exact h.2 y hy
        cases hrr2 : ReservationRepository.release_reservation s2 res.id with
        | mk b2 s3 =>
          have hs3 : StoreInv s3 := by
            have hc := release_reservation_repo_inv s2 res.id hs2inv
            rw [hrr2] at hc
            exact hc
          simp only [Api.release_inventory, hfindres, hrel, hrr2]
          split
          · exact hs3
          · exact h

theorem storeInv_adjust_route (s : Store) (p : ProductId) (l : LocationId)
    (d : Int) (ty : AdjustmentType) (reason : Option String) (created_by : String)
    (h : StoreInv s) :
    StoreInv (Api.adjust_inventory s p l d ty reason created_by).1 := by
  cases hfind : get_by_product_and_location s p l with
  | none =>
    have heq : (Api.adjust_inventory s p l d ty reason created_by).1 = s := by
      simp [Api.adjust_inventory, hfind]
    rw [heq]
    exact h
  | some inv =>
    cases hadj : InventoryRepository.adjust_inventory s p l d ty reason created_by with
    | mk b s2 =>
      cases b with
      | false =>
        simp only [Api.adjust_inventory, hfind, hadj]
        split
        · exact h
        · exact h
      | true =>
        have hs2inv : StoreInv s2 := by
          constructor
          · have hc := adjust_repo_counters s p l d ty reason created_by h.1
            rw [hadj] at hc
            exact hc
          · have hc := adjust_repo_reservations s p l d ty reason created_by
            rw [hadj] at hc
            intro y hy
            rw [hc] at hy
            exact h.2 y hy
        simp only [Api.adjust_inventory, hfind, hadj]
        split
        · exact hs2inv
        · exact h

theorem storeInv_complete_route (s : Store) (rid : ReservationId)
    (h : StoreInv s) :
    StoreInv (Api.complete_reservation s rid).1 := by
  cases hmc : ReservationRepository.mark_as_completed s rid with
  | mk b s2 =>
    cases b with
    | false =>
      have heq : (Api.complete_reservation s rid).1 = s := by
        simp [Api.complete_reservation, hmc]
      rw [heq]
      exact h
    | true =>
      have hs2 : StoreInv s2 := by
        have hc := mark_as_completed_repo_inv s rid h
        rw [hmc] at hc
        exact hc
      simp only [Api.complete_reservation, hmc]
      split
      · exact hs2
      · exact h

theorem storeInv_release_res_route (s : Store) (rid : ReservationId)
    (h : StoreInv s) :
    StoreInv (Api.release_reservation s rid).1 := by
  cases hfind : ReservationRepository.get s rid with
  | none =>
    have heq : (Api.release_reservation s rid).1 = s := by
      simp [Api.release_reservation, hfind]
    rw [heq]
    exact h
  | some r =>
    by_cases hst : r.status = ReservationStatus.active
    · have hrq : 0 < r.quantity :=
        h.2 r (List.mem_of_find?_eq_some
          (show s.reservations.find? (resKey rid) = some r from hfind))
      cases hrel : InventoryRepository.release_inventory s r.product_id
          r.location_id r.quantity with
      | mk b s2 =>
        cases b with
        | false =>
          have heq : (Api.release_reservation s rid).1 = s := by
            simp [Api.release_reservation, hfind, hst, hrel]
          rw [heq]
          exact h
        | true =>
          have hs2inv : StoreInv s2 := by
            constructor
            · have hc := release_repo_counters s r.product_id r.location_id
                r.quantity (le_of_lt hrq) h.1
              rw [hrel] at hc
              exact hc
            · have hc := release_repo_reservations s r.product_id r.location_id r.quantity
              rw [hrel] at hc
              intro y hy
              rw [hc] at hy
              exact h.2 y hy
          cases hrr2 : ReservationRepository.release_reservation s2 rid with
          | mk b2 s3 =>
            have hs3 : StoreInv s3 := by
              have hc := release_reservation_repo_inv s2 rid hs2inv
              rw [hrr2] at hc
              exact hc
            simp only [Api.release_reservation, hfind]
            rw [if_neg (by simp [hst])]
            simp only [hrel, hrr2]
            split
            · exact hs3
            · exact h
    · have heq : (Api.release_reservation s rid).1 = s := by
        simp [Api.release_reservation, hfind, hst]
      rw [heq]
      exact h

theorem storeInv_applyOp (s : Store) (op : Op) (h : StoreInv s) :
    StoreInv (applyOp s op) := by
  cases op with
  | create_location l => exact ⟨h.1, h.2⟩
  | create_inventory p l qa rp rq iid =>
    show StoreInv (if 0 ≤ qa ∧ 0 ≤ rp ∧ 1 ≤ rq
      then (Api.create_inventory s p l qa rp rq iid).1 else s)
    by_cases hval : 0 ≤ qa ∧ 0 ≤ rp ∧ 1 ≤ rq
    · rw [if_pos hval]
      exact storeInv_create_inventory_route s p l qa rp rq iid hval.1 h
    · rw [if_neg hval]
      exact h
  | reserve p l q oid rid =>
    show StoreInv (if 0 < q then (Api.reserve_inventory s p l q oid rid).1 else s)
    by_cases hval : 0 < q
    · rw [if_pos hval]
      exact storeInv_reserve_route s p l q oid rid hval h
    · rw [if_neg hval]
      exact h
  | release p l q oid =>
    show StoreInv (if 0 < q then (Api.release_inventory s p l q oid).1 else s)
    by_cases hval : 0 < q
    · rw [if_pos hval]
      exact storeInv_release_route s p l q oid hval h
    · rw [if_neg hval]
      exact h
  | adjust p l d ty reason created_by =>
    exact storeInv_adjust_route s p l d ty reason created_by h
  | complete_reservation rid => exact storeInv_complete_route s rid h
  | release_reservation rid => exact storeInv_release_res_route s rid h
  | expire_reservation rid => exact mark_as_expired_repo_inv s rid h

/-- C1: in every state reachable from the empty store by any sequence of
public operations (location/inventory creation, reserve, release, adjust,
and the reservation transitions), every inventory record satisfies
`0 ≤ quantity_available` and `0 ≤ quantity_reserved`: no operation leaves a
negative counter (src/repositories/inventory.py lines 148-160 and 266-280
together with the request validations of src/api/models/inventory.py). -/
theorem reachable_counters_nonneg (s : Store) (h : Reachable s) :
    ∀ inv ∈ s.inventories,
      0 ≤ inv.quantity_available ∧ 0 ≤ inv.quantity_reserved := by
  have hinv : StoreInv s := by
    induction h with
    | empty =>
      constructor
      · intro inv hinv
        exact absurd hinv (by simp [emptyStore])
      · intro r hr
        exact absurd hr (by simp [emptyStore])
    | step s0 op h0 ih => exact storeInv_applyOp s0 op ih
  exact hinv.1

/-- Closed instance of the C1 theorem: creating a location and an inventory
record from the empty store yields a record with non-negative counters. -/
theorem reachable_counters_nonneg_app :
    0 ≤ ({ id := 10, product_id := 1, location_id := 2, quantity_available := 5,
           quantity_reserved := 0, reorder_point := 10,
           reorder_quantity := 100 } : Inventory).quantity_available ∧
    0 ≤ ({ id := 10, product_id := 1, location_id := 2, quantity_available := 5,
           quantity_reserved := 0, reorder_point := 10,
           reorder_quantity := 100 } : Inventory).quantity_reserved :=
  reachable_counters_nonneg
    (applyOp (applyOp emptyStore (Op.create_location 2))
      (Op.create_inventory 1 2 5 10 100 10))
    (Reachable.step _ _ (Reachable.step _ _ Reachable.empty))
    { id := 10, product_id := 1, location_id := 2, quantity_available := 5,
      quantity_reserved := 0, reorder_point := 10, reorder_quantity := 100 }
    (by decide)

/-- Closed instance of the C2 theorem on the demo store. -/
theorem reserve_inventory_spec_app :
    (InventoryRepository.reserve_inventory demoStore 1 2 2).1 = true ∧
    get_by_product_and_location
        (InventoryRepository.reserve_inventory demoStore 1 2 2).2 1 2
      = some { demoInventory with
          quantity_available := demoInventory.quantity_available - 2,
          quantity_reserved := demoInventory.quantity_reserved + 2 } := by
  have h := (reserve_inventory_spec demoStore 1 2 2 (by decide)).2.2
    demoInventory (by decide) (by decide)
  exact ⟨h.1, h.2.1⟩

/-- Closed instance of the C3 theorem: reserve 2 then release 2 restores
the demo store exactly. -/
theorem release_inventory_spec_app :
    InventoryRepository.release_inventory
      (InventoryRepository.reserve_inventory demoStore 1 2 2).2 1 2 2
      = (true, demoStore) :=
  (release_inventory_spec demoStore 1 2 2 (by decide)).2.2.2
    demoInventory (by decide) (by decide) (by decide)

/-- Closed instance of the C4 theorem: a damage adjustment of -3 appends
exactly one matching adjustment record. -/
theorem adjust_inventory_spec_app :
    (InventoryRepository.adjust_inventory demoStore 1 2 (-3)
      AdjustmentType.damage (some "broken") "api").1 = true ∧
    (InventoryRepository.adjust_inventory demoStore 1 2 (-3)
      AdjustmentType.damage (some "broken") "api").2.adjustments
      = demoStore.adjustments ++
        [{ inventory_id := demoInventory.id, product_id := 1,
           adjustment_type := AdjustmentType.damage, quantity := -3,
           reason := some "broken", created_by := "api" }] := by
  have h := (adjust_inventory_spec demoStore 1 2 (-3)
    AdjustmentType.damage (some "broken") "api").2.2 demoInventory (by decide) (by decide)
  exact ⟨h.1, h.2.2.2.1⟩

/-- Closed instance of the C5 theorem: completing reservation 7 a second
time fails and leaves the store unchanged. -/
theorem reservation_terminal_spec_app :
    ReservationRepository.mark_as_completed
        (setReservationStatus demoStore 7 ReservationStatus.completed) 7
      = (false, setReservationStatus demoStore 7 ReservationStatus.completed) :=
  ((reservation_terminal_spec demoStore 7).2.1
    (setReservationStatus demoStore 7 ReservationStatus.completed) (by decide)).1

/-- Closed instance of the C6 theorem: completing reservation 7 leaves the
inventory table untouched. -/
theorem complete_reservation_frame_app :
    (setReservationStatus demoStore 7 ReservationStatus.completed).inventories
      = demoStore.inventories :=
  (complete_reservation_frame demoStore 7
    (setReservationStatus demoStore 7 ReservationStatus.completed)
    (Reservation.setStatus ReservationStatus.completed demoReservation)
    (by rfl)).1

/-- Closed instance of the C7 theorem: releasing reservation 8 (quantity 9
against a reserved counter of 3) reports conflict and rolls back. -/
theorem release_reservation_route_atomic_app :
    Api.release_reservation demoStore 8 = (demoStore, Except.error ApiError.conflict) :=
  (release_reservation_route_atomic demoStore 8 demoBadReservation
    (by rfl) (by rfl) (by rfl)).1

/-- Closed instance of the C9 theorem: the item built from `lowInventory`
appears in the low-stock response and satisfies the filter and annotation. -/
theorem get_low_stock_spec_app :
    ∃ inv, inv ∈ demoStore.inventories ∧
      inv.quantity_available ≤ inv.reorder_point ∧
      (∀ l0, (none : Option LocationId) = some l0 → inv.location_id = l0) ∧
      Api.toLowStockItem lowInventory = Api.toLowStockItem inv ∧
      (Api.toLowStockItem lowInventory).shortage
        = inv.reorder_point - inv.quantity_available :=
  (get_low_stock_spec demoStore none 100).1 (Api.toLowStockItem lowInventory) (by decide)

/-- Closed instance of the C10 theorem: order 42 has an active reservation
for 3 units and the record has 3 units reserved, yet releasing 2 units
fails with NotFound and leaves the store unchanged. -/
theorem release_route_exact_match_app :
    Api.release_inventory demoStore 1 2 2 42 = (demoStore, Except.error ApiError.notFound) :=
  (release_route_exact_match demoStore 1 2 2 42).1 (by decide)

end InvSvc
